import Mathlib

/-!
Shallow embedding of the EloAr backend optimization job orchestrator
(`src/services/optimization.service.ts`, `src/repositories/distribution.repository.ts`
and the repositories it consumes), together with proofs about its behavior.

Conventions of the embedding:
- Database tables are Lean lists of row structures; a `pg` query either
  succeeds (pure list/insert semantics) or fails with an injected error
  message carried by the environment.
- JavaScript truthiness of numbers (`if (filters?.schoolYearId)`,
  `x || default`) is modelled explicitly: `0` counts as absent.
- Timestamps are naturals (`env.now` stands for `new Date()`).
- The external solver call (`axios.post`) is modelled by a `SolverOutcome`
  describing what the transport layer did for this invocation.
-/

namespace EloAr

/-- Status enum of `optimization_runs.status`
(CHECK constraint in `001_create_initial_schema.sql`). -/
inductive RunStatus where
  | PENDING
  | RUNNING
  | COMPLETED
  | FAILED
  | CANCELLED
deriving DecidableEq, Repr

/-- Row of `optimization_runs`, fields as mapped by
`mapRowToOptimizationRun` in `distribution.repository.ts`. -/
structure OptimizationRun where
  id : Nat
  schoolYearId : Nat
  gradeLevelId : Nat
  configurationId : Option Nat
  status : RunStatus
  progress : Nat
  currentGeneration : Nat
  totalGenerations : Nat
  populationSize : Nat
  bestFitness : Option Int
  executionTimeSeconds : Option Nat
  errorMessage : Option String
  distributionId : Option Nat
  startedAt : Option Nat
  completedAt : Option Nat
deriving DecidableEq, Repr

/-- The partial-update object accepted by `updateOptimizationRun`
(`UpdateOptimizationRunDTO`): a field that is `none` was not supplied
(`undefined` in TypeScript) and keeps its previous value. -/
structure UpdateOptimizationRunDTO where
  status : Option RunStatus := none
  progress : Option Nat := none
  currentGeneration : Option Nat := none
  bestFitness : Option Int := none
  executionTimeSeconds : Option Nat := none
  errorMessage : Option String := none
  distributionId : Option Nat := none
  startedAt : Option Nat := none
  completedAt : Option Nat := none
deriving DecidableEq, Repr

/-- Row of `distributions`; the JSONB `metadata` written by the service is
flattened into its three keys (`generationCount`, `executionTime`, `runId`). -/
structure Distribution where
  id : Nat
  schoolYearId : Nat
  gradeLevelId : Nat
  configurationId : Option Nat
  name : String
  fitnessScore : Option Int
  isFinal : Bool
  isOptimized : Bool
  metaGenerationCount : Option Nat
  metaExecutionTime : Option Nat
  metaRunId : Option Nat
deriving DecidableEq, Repr

/-- Row of `distribution_assignments` (`assigned_at`/serial id omitted:
they are never read by the orchestrator). -/
structure DistributionAssignment where
  distributionId : Nat
  studentId : Nat
  classId : Nat
deriving DecidableEq, Repr

/-- The relational state touched by the orchestrator: the runs table, the
distributions table with its serial id counter, and the assignments table. -/
structure DB where
  runs : List OptimizationRun
  distributions : List Distribution
  assignments : List DistributionAssignment
  nextDistributionId : Nat
deriving DecidableEq, Repr

/-- Row of `students` restricted to the columns the optimization payload
projects (`prepareOptimizationPayload`). -/
structure Student where
  id : Nat
  schoolYearId : Nat
  gradeLevelId : Nat
  fullName : String
  gender : String
  academicAverage : Option Int
  behavioralScore : Option Int
  hasSpecialNeeds : Bool
deriving DecidableEq, Repr

/-- Row of `classes` restricted to the columns the payload projects. -/
structure SchoolClass where
  id : Nat
  schoolYearId : Nat
  gradeLevelId : Nat
  name : String
  capacity : Nat
deriving DecidableEq, Repr

/-- Row produced by `StudentConstraintRepository.findAll` (the LEFT JOIN on
`constraint_types` can leave the weight null, hence the option). -/
structure StudentConstraintRow where
  id : Nat
  schoolYearId : Nat
  studentAId : Nat
  studentBId : Nat
  action : String
  constraintTypeWeight : Option Int
deriving DecidableEq, Repr

/-- Row produced by `StudentPreferenceRepository.findAll`; the school year
and grade of the preferring student come from the joined `students` row and
exist only so that scoping (or its absence) can be stated. -/
structure StudentPreferenceRow where
  id : Nat
  studentId : Nat
  preferredStudentId : Nat
  priority : Nat
  studentSchoolYearId : Nat
  studentGradeLevelId : Nat
deriving DecidableEq, Repr

/-- Row produced by `SiblingRuleRepository.findAll`. -/
structure SiblingRuleRow where
  id : Nat
  schoolYearId : Nat
  studentAId : Nat
  studentBId : Nat
  ruleType : String
deriving DecidableEq, Repr

/-- The seven named weight categories of a weight configuration
(`configurations.weights` JSONB, NOT NULL per the schema). -/
structure Weights where
  critical_constraints : Int
  high_constraints : Int
  behavioral_separation : Int
  sibling_rules : Int
  student_preferences : Int
  academic_balance : Int
  class_size_balance : Int
deriving DecidableEq, Repr

/-- Row of `configurations` restricted to what weight resolution reads. -/
structure Configuration where
  id : Nat
  name : String
  isDefault : Bool
  weights : Weights
deriving DecidableEq, Repr

/-- Payload projection of a student (`prepareOptimizationPayload`). -/
structure PayloadStudent where
  id : Nat
  fullName : String
  gender : String
  academicAverage : Int
  behavioralScore : Int
  hasSpecialNeeds : Bool
deriving DecidableEq, Repr

/-- Payload projection of a class. -/
structure PayloadClass where
  id : Nat
  name : String
  maxCapacity : Nat
deriving DecidableEq, Repr

/-- Payload projection of a pairwise constraint. -/
structure PayloadConstraint where
  studentAId : Nat
  studentBId : Nat
  constraintTypeWeight : Int
  action : String
deriving DecidableEq, Repr

/-- Payload projection of a student preference. -/
structure PayloadPreference where
  studentId : Nat
  preferredStudentId : Nat
  priority : Nat
deriving DecidableEq, Repr

/-- Payload projection of a sibling rule. -/
structure PayloadSiblingRule where
  studentAId : Nat
  studentBId : Nat
  ruleType : String
deriving DecidableEq, Repr

/-- The assembled solver request (`OptimizationPayload` in the service). -/
structure OptimizationPayload where
  students : List PayloadStudent
  classes : List PayloadClass
  constraints : List PayloadConstraint
  preferences : List PayloadPreference
  siblingRules : List PayloadSiblingRule
  weights : Weights
  configTotalGenerations : Nat
  configPopulationSize : Nat
deriving DecidableEq, Repr

/-- One (studentId, classId) pair returned by the solver. -/
structure SolverAssignment where
  studentId : Nat
  classId : Nat
deriving DecidableEq, Repr

/-- Body of a solver HTTP response (`OptimizationResult` in the service). -/
structure SolverResponse where
  success : Bool
  fitnessScore : Int
  generationCount : Nat
  executionTime : Nat
  assignments : List SolverAssignment
  message : Option String
deriving DecidableEq, Repr

/-- What the transport layer did for one `axios.post` invocation:
a response arrived, the connection was refused (`ECONNREFUSED`), the
request timed out (`ECONNABORTED`), or some other transport error with an
optional message occurred. -/
inductive SolverOutcome where
  | response (data : SolverResponse)
  | connRefused
  | connAborted
  | otherError (msg : Option String)
deriving DecidableEq, Repr

/-- External world of one background pipeline execution: the clock, the
contents of every table it reads, the solver transport outcome, and an
injected failure for the bulk assignment INSERT (none = the INSERT
statement succeeds). -/
structure Env where
  now : Nat
  students : List Student
  classes : List SchoolClass
  constraints : List StudentConstraintRow
  preferences : List StudentPreferenceRow
  siblingRules : List SiblingRuleRow
  configurations : List Configuration
  solverOutcome : SolverOutcome
  assignmentInsertError : Option String
deriving DecidableEq, Repr

-- Equality on `Except` results is decidable (used by concrete
-- counterexample evaluations).
deriving instance DecidableEq for Except

/-! ## JavaScript truthiness helpers -/

/-- JavaScript `s || d` on a possibly-null string: null, undefined and the
empty string all fall back to the default. -/
def orElseStr (m : Option String) (d : String) : String :=
  match m with
  | some s => if s = "" then d else s
  | none => d

/-- JavaScript `s || d` on a string known to be present. -/
def orEmpty (s : String) (d : String) : String :=
  if s = "" then d else s

/-- JavaScript `x || d` on a possibly-null number: null and 0 fall back. -/
def jsOrInt (o : Option Int) (d : Int) : Int :=
  match o with
  | some v => if v = 0 then d else v
  | none => d

/-- JavaScript `x || null` on a possibly-null number: 0 becomes null. -/
def jsOptNat (o : Option Nat) : Option Nat :=
  match o with
  | some v => if v = 0 then none else some v
  | none => none

/-- JavaScript `x || null` on a possibly-null integer. -/
def jsOptInt (o : Option Int) : Option Int :=
  match o with
  | some v => if v = 0 then none else some v
  | none => none

/-- Supplied-or-keep semantics of a partial update field. -/
def setOpt {α : Type} (upd : Option α) (old : Option α) : Option α :=
  match upd with
  | some v => some v
  | none => old

/-! ## Repository layer -/

/-- Lookup of `findOptimizationRunById` (`SELECT ... WHERE id = $1`). -/
def findOptimizationRunById (db : DB) (id : Nat) : Option OptimizationRun :=
  db.runs.find? (fun r => r.id == id)

/-- Field application of one `updateOptimizationRun` call: every supplied
field overwrites, every omitted field is kept.  The repository builds the
`SET` clause from exactly the supplied fields and has no guard of any kind
on the current status. -/
def applyRunUpdate (r : OptimizationRun) (u : UpdateOptimizationRunDTO) : OptimizationRun :=
  { r with
    status := u.status.getD r.status
    progress := u.progress.getD r.progress
    currentGeneration := u.currentGeneration.getD r.currentGeneration
    bestFitness := setOpt u.bestFitness r.bestFitness
    executionTimeSeconds := setOpt u.executionTimeSeconds r.executionTimeSeconds
    errorMessage := setOpt u.errorMessage r.errorMessage
    distributionId := setOpt u.distributionId r.distributionId
    startedAt := setOpt u.startedAt r.startedAt
    completedAt := setOpt u.completedAt r.completedAt }

/-- `updateOptimizationRun(id, updates)`: re-reads the run, returns `none`
leaving the table unchanged when it does not exist, otherwise applies the
supplied fields to the row (`UPDATE ... WHERE id = $n`). -/
def updateOptimizationRun (db : DB) (id : Nat) (u : UpdateOptimizationRunDTO) :
    DB × Option OptimizationRun :=
  match db.runs.find? (fun r => r.id == id) with
  | none => (db, none)
  | some r =>
      ({ db with runs := db.runs.map (fun x => if x.id == id then applyRunUpdate x u else x) },
        some (applyRunUpdate r u))

/-- Insert DTO of `distributionRepository.create`. -/
structure CreateDistributionDTO where
  schoolYearId : Nat
  gradeLevelId : Nat
  configurationId : Option Nat
  name : String
  fitnessScore : Option Int
  isFinal : Bool
  isOptimized : Bool
  metaGenerationCount : Option Nat
  metaExecutionTime : Option Nat
  metaRunId : Option Nat
deriving DecidableEq, Repr

/-- `distributionRepository.create`: a single INSERT allocating the next
serial id; `configurationId || null` and `fitnessScore || null` follow
JavaScript truthiness. -/
def distributionCreate (db : DB) (dto : CreateDistributionDTO) : DB × Distribution :=
  let d : Distribution :=
    { id := db.nextDistributionId
      schoolYearId := dto.schoolYearId
      gradeLevelId := dto.gradeLevelId
      configurationId := jsOptNat dto.configurationId
      name := dto.name
      fitnessScore := jsOptInt dto.fitnessScore
      isFinal := dto.isFinal
      isOptimized := dto.isOptimized
      metaGenerationCount := dto.metaGenerationCount
      metaExecutionTime := dto.metaExecutionTime
      metaRunId := dto.metaRunId }
  ({ db with
      distributions := db.distributions ++ [d]
      nextDistributionId := db.nextDistributionId + 1 }, d)

/-- `createAssignments`: returns immediately without touching the database
on an empty list; otherwise issues ONE multi-row INSERT statement, which
either fails as a whole (injected error) or inserts every row.  There is
no surrounding transaction tying it to the Distribution INSERT. -/
def createAssignments (db : DB) (err : Option String)
    (rows : List DistributionAssignment) : Except String DB :=
  if rows.isEmpty then Except.ok db
  else
    match err with
    | some e => Except.error e
    | none => Except.ok { db with assignments := db.assignments ++ rows }

/-- `studentRepository.findAll({schoolYearId, gradeLevelId})`: each filter
is appended only when the value is truthy (a zero id disables it). -/
def studentFindAll (rows : List Student) (syId gId : Nat) : List Student :=
  let r1 := if syId = 0 then rows else rows.filter (fun s => s.schoolYearId == syId)
  if gId = 0 then r1 else r1.filter (fun s => s.gradeLevelId == gId)

/-- `classRepository.findAll({schoolYearId, gradeLevelId})`, same truthy
filter handling. -/
def classFindAll (rows : List SchoolClass) (syId gId : Nat) : List SchoolClass :=
  let r1 := if syId = 0 then rows else rows.filter (fun c => c.schoolYearId == syId)
  if gId = 0 then r1 else r1.filter (fun c => c.gradeLevelId == gId)

/-- `studentConstraintRepository.findAll({schoolYearId})`: scoped to the
school year (when truthy); the service passes only this filter. -/
def constraintFindAll (rows : List StudentConstraintRow) (syId : Nat) : List StudentConstraintRow :=
  if syId = 0 then rows else rows.filter (fun c => c.schoolYearId == syId)

/-- `studentPreferenceRepository.findAll()`: the service passes NO filter,
so every preference row in the system is returned. -/
def preferenceFindAll (rows : List StudentPreferenceRow) : List StudentPreferenceRow :=
  rows

/-- `siblingRuleRepository.findAll({schoolYearId})`: scoped to the school
year (when truthy). -/
def siblingFindAll (rows : List SiblingRuleRow) (syId : Nat) : List SiblingRuleRow :=
  if syId = 0 then rows else rows.filter (fun r => r.schoolYearId == syId)

/-- `configurationRepository.findById`. -/
def configFindById (configs : List Configuration) (id : Nat) : Option Configuration :=
  configs.find? (fun c => c.id == id)

/-- `configurationRepository.findActive`:
`SELECT * FROM configurations WHERE is_default = true LIMIT 1`. -/
def configFindActive (configs : List Configuration) : Option Configuration :=
  configs.find? (fun c => c.isDefault)

/-- Hard-coded fallback weight vector of `prepareOptimizationPayload`. -/
def defaultWeights : Weights :=
  { critical_constraints := 1000
    high_constraints := 500
    behavioral_separation := 300
    sibling_rules := 200
    student_preferences := 100
    academic_balance := 50
    class_size_balance := 50 }

/-! ## Service layer (`optimization.service.ts`) -/

/-- Error message of the empty-students precondition. -/
def noStudentsMsg : String :=
  "Nenhum aluno encontrado para a série e ano letivo selecionados"

/-- Error message of the empty-classes precondition. -/
def noClassesMsg : String :=
  "Nenhuma turma encontrada para a série e ano letivo selecionados"

/-- Error message of the capacity precondition, with both counts
interpolated exactly as the service does. -/
def insufficientCapacityMsg (studentCount totalCapacity : Nat) : String :=
  "Capacidade insuficiente: " ++ toString studentCount ++ " alunos para " ++
    toString totalCapacity ++ " vagas"

/-- Weight resolution of `prepareOptimizationPayload`: the run's explicit
configuration when its id is truthy and resolvable, else the active
(default-flagged) configuration, else the hard-coded fallback vector.
`weights` is a NOT NULL JSONB object, so a resolved configuration always
contributes truthy weights. -/
def resolveWeights (configs : List Configuration) (configurationId : Option Nat) : Weights :=
  let weights0 : Option Weights :=
    match configurationId with
    | some cid =>
        if cid = 0 then none
        else (configFindById configs cid).map (fun c => c.weights)
    | none => none
  let weights1 : Option Weights :=
    match weights0 with
    | some w => some w
    | none => (configFindActive configs).map (fun c => c.weights)
  weights1.getD defaultWeights

/-- `prepareOptimizationPayload(run)`: fetch and validate students and
classes, check total capacity, fetch constraints / preferences / sibling
rules, resolve weights, and project everything to the solver's fields.
Each `throw new Error(...)` becomes `Except.error`. -/
def prepareOptimizationPayload (env : Env) (run : OptimizationRun) :
    Except String OptimizationPayload :=
  let students := studentFindAll env.students run.schoolYearId run.gradeLevelId
  if students.length = 0 then Except.error noStudentsMsg
  else
    let classes := classFindAll env.classes run.schoolYearId run.gradeLevelId
    if classes.length = 0 then Except.error noClassesMsg
    else
      let totalCapacity := classes.foldl (fun sum c => sum + c.capacity) 0
      if totalCapacity < students.length then
        Except.error (insufficientCapacityMsg students.length totalCapacity)
      else
        let constraints := constraintFindAll env.constraints run.schoolYearId
        let preferences := preferenceFindAll env.preferences
        let siblingRules := siblingFindAll env.siblingRules run.schoolYearId
        let weights := resolveWeights env.configurations run.configurationId
        Except.ok
          { students := students.map (fun s =>
              { id := s.id
                fullName := s.fullName
                gender := s.gender
                academicAverage := jsOrInt s.academicAverage 0
                behavioralScore := jsOrInt s.behavioralScore 0
                hasSpecialNeeds := s.hasSpecialNeeds })
            classes := classes.map (fun c =>
              { id := c.id, name := c.name, maxCapacity := c.capacity })
            constraints := constraints.map (fun c =>
              { studentAId := c.studentAId
                studentBId := c.studentBId
                constraintTypeWeight := jsOrInt c.constraintTypeWeight 500
                action := c.action })
            preferences := preferences.map (fun p =>
              { studentId := p.studentId
                preferredStudentId := p.preferredStudentId
                priority := p.priority })
            siblingRules := siblingRules.map (fun r =>
              { studentAId := r.studentAId
                studentBId := r.studentBId
                ruleType := r.ruleType })
            weights := weights
            configTotalGenerations := run.totalGenerations
            configPopulationSize := run.populationSize }

/-- Request timeout passed to `axios.post` in `callPythonService`,
in milliseconds. -/
def requestTimeoutMs : Nat := 600000

/-- Error message of the `ECONNREFUSED` branch of `callPythonService`. -/
def solverUnavailableMsg : String :=
  "Serviço Python não está disponível. Verifique se está rodando na porta 8000."

/-- Error message of the `ECONNABORTED` (timeout) branch. -/
def solverTimeoutMsg : String :=
  "Timeout: A otimização demorou mais de 10 minutos"

/-- `callPythonService(payload)`: one `axios.post` per invocation; a
response with `success: false` raises the solver's own message (falling
back to a generic one), `ECONNREFUSED` and `ECONNABORTED` map to their
dedicated messages, any other transport error surfaces its message or a
generic one.  No retry path exists. -/
def callPythonService (outcome : SolverOutcome) : Except String SolverResponse :=
  match outcome with
  | SolverOutcome.response data =>
      if data.success then Except.ok data
      else Except.error (orElseStr data.message "Otimização falhou")
  | SolverOutcome.connRefused => Except.error solverUnavailableMsg
  | SolverOutcome.connAborted => Except.error solverTimeoutMsg
  | SolverOutcome.otherError msg =>
      Except.error (orElseStr msg "Erro ao comunicar com serviço de otimização")

/-- Distribution name written by the commit step; the locale-formatted
date is abstracted to the clock value. -/
def distributionName (now : Nat) : String :=
  "Distribuição Otimizada " ++ toString now

/-- Update object of the `status: RUNNING` write at pipeline start. -/
def dtoRunning (now : Nat) : UpdateOptimizationRunDTO :=
  { status := some RunStatus.RUNNING, startedAt := some now }

/-- Update object of a failure write (`status: FAILED`, message,
completion time). -/
def dtoFailed (msg : String) (now : Nat) : UpdateOptimizationRunDTO :=
  { status := some RunStatus.FAILED, errorMessage := some msg, completedAt := some now }

/-- Update object of the success write at pipeline end. -/
def dtoCompleted (gen : Nat) (fitness : Int) (execSecs : Nat) (distId : Nat)
    (now : Nat) : UpdateOptimizationRunDTO :=
  { status := some RunStatus.COMPLETED
    progress := some 100
    currentGeneration := some gen
    bestFitness := some fitness
    executionTimeSeconds := some execSecs
    distributionId := some distId
    completedAt := some now }

/-- Update object of the cancel write. -/
def dtoCancelled (now : Nat) : UpdateOptimizationRunDTO :=
  { status := some RunStatus.CANCELLED, completedAt := some now }

/-- `executeOptimization(runId)`: the background pipeline.  Returns the
final database, the number of solver invocations performed, and the
outcome of the `try` block (`Except.error` both when a step threw and was
handled by the `catch`, which marks the run FAILED and rethrows, and when
the run was not found, which happens before the `try`). -/
def executeOptimization (env : Env) (db : DB) (runId : Nat) :
    DB × Nat × Except String Unit :=
  match findOptimizationRunById db runId with
  | none => (db, 0, Except.error "Optimization run not found")
  | some run =>
      let db1 := (updateOptimizationRun db runId (dtoRunning env.now)).1
      match prepareOptimizationPayload env run with
      | Except.error e =>
          ((updateOptimizationRun db1 runId
            (dtoFailed (orEmpty e "Erro ao executar otimização") env.now)).1,
            0, Except.error e)
      | Except.ok _payload =>
          match callPythonService env.solverOutcome with
          | Except.error e =>
              ((updateOptimizationRun db1 runId
                (dtoFailed (orEmpty e "Erro ao executar otimização") env.now)).1,
                1, Except.error e)
          | Except.ok result =>
              let (db2, dist) := distributionCreate db1
                { schoolYearId := run.schoolYearId
                  gradeLevelId := run.gradeLevelId
                  configurationId := run.configurationId
                  name := distributionName env.now
                  fitnessScore := some result.fitnessScore
                  isFinal := false
                  isOptimized := true
                  metaGenerationCount := some result.generationCount
                  metaExecutionTime := some result.executionTime
                  metaRunId := some runId }
              let rows := result.assignments.map (fun a =>
                { distributionId := dist.id
                  studentId := a.studentId
                  classId := a.classId : DistributionAssignment })
              match createAssignments db2 env.assignmentInsertError rows with
              | Except.error e =>
                  ((updateOptimizationRun db2 runId
                    (dtoFailed (orEmpty e "Erro ao executar otimização") env.now)).1,
                    1, Except.error e)
              | Except.ok db3 =>
                  ((updateOptimizationRun db3 runId
                    (dtoCompleted result.generationCount result.fitnessScore
                      (result.executionTime / 1000) dist.id env.now)).1,
                    1, Except.ok ())

/-- `startOptimization(runId)`: fire-and-forget launch of the pipeline;
its `.catch` handler marks the run FAILED with the error message (or a
generic one) and swallows the rejection. -/
def startOptimization (env : Env) (db : DB) (runId : Nat) : DB :=
  match executeOptimization env db runId with
  | (db1, _, Except.ok _) => db1
  | (db1, _, Except.error e) =>
      (updateOptimizationRun db1 runId
        (dtoFailed (orEmpty e "Erro desconhecido") env.now)).1

/-- Number of solver invocations a pipeline execution performs. -/
def solverCalls (env : Env) (db : DB) (runId : Nat) : Nat :=
  (executeOptimization env db runId).2.1

/-- `cancelOptimization(runId)`: re-reads the run; returns false when it
does not exist or is already COMPLETED or FAILED; otherwise (PENDING,
RUNNING — and also CANCELLED, which the guard does not cover) sets
CANCELLED with completedAt = now and returns true. -/
def cancelOptimization (env : Env) (db : DB) (runId : Nat) : DB × Bool :=
  match findOptimizationRunById db runId with
  | none => (db, false)
  | some run =>
      if run.status = RunStatus.COMPLETED ∨ run.status = RunStatus.FAILED then (db, false)
      else
        ((updateOptimizationRun db runId (dtoCancelled env.now)).1, true)

/-- Row created by `createOptimizationRun` (INSERT with literal
`'PENDING', 0, 0` for status, progress and current generation, every
nullable column left NULL). -/
def freshRun (id syId gId : Nat) (cfg : Option Nat) (totGen popSize : Nat) : OptimizationRun :=
  { id := id
    schoolYearId := syId
    gradeLevelId := gId
    configurationId := cfg
    status := RunStatus.PENDING
    progress := 0
    currentGeneration := 0
    totalGenerations := totGen
    populationSize := popSize
    bestFitness := none
    executionTimeSeconds := none
    errorMessage := none
    distributionId := none
    startedAt := none
    completedAt := none }

/-! ## Per-run trace model

The background pipeline writes its run row a fixed number of times, with
contents depending only on the run snapshot it fetched at launch and on
the external world, never on later changes to the row.  The advisory
cancel path is the single concurrent writer and re-reads the status.  The
following small-step system makes every interleaving of the two
expressible: a state is the current run row paired with the pipeline
updates still to come. -/

/-- One write of the pipeline to its run row. -/
inductive RunOp where
  | toRunning (now : Nat)
  | toFailed (msg : String) (now : Nat)
  | toCompleted (gen : Nat) (fitness : Int) (execSecs : Nat) (distId : Nat) (now : Nat)
deriving DecidableEq, Repr

/-- Effect of one pipeline write, going through the guard-free
`applyRunUpdate` exactly as the service does. -/
def applyRunOp (r : OptimizationRun) (op : RunOp) : OptimizationRun :=
  match op with
  | RunOp.toRunning now => applyRunUpdate r (dtoRunning now)
  | RunOp.toFailed msg now => applyRunUpdate r (dtoFailed msg now)
  | RunOp.toCompleted gen fitness execSecs distId now =>
      applyRunUpdate r (dtoCompleted gen fitness execSecs distId now)

/-- Effect of one `cancelOptimization` call on the run row (the re-read
guard included). -/
def cancelRun (r : OptimizationRun) (now : Nat) : OptimizationRun :=
  if r.status = RunStatus.COMPLETED ∨ r.status = RunStatus.FAILED then r
  else applyRunUpdate r (dtoCancelled now)

/-- Run-row write sequence of a failing pipeline execution: RUNNING first,
then the failure write of the pipeline `catch`, then the failure write of
the launcher's `.catch` (same error, different generic fallbacks).  A
successful execution instead writes RUNNING then COMPLETED; see
`pipelineRunOps`. -/
def pipelineFailOps (now : Nat) (e : String) : List RunOp :=
  [RunOp.toRunning now,
   RunOp.toFailed (orEmpty e "Erro ao executar otimização") now,
   RunOp.toFailed (orEmpty e "Erro desconhecido") now]

/-- Write sequence of a full pipeline execution, dispatched on the same
branches as `executeOptimization`. -/
def pipelineRunOps (env : Env) (run : OptimizationRun) (distId : Nat) : List RunOp :=
  match prepareOptimizationPayload env run with
  | Except.error e => pipelineFailOps env.now e
  | Except.ok _ =>
      match callPythonService env.solverOutcome with
      | Except.error e => pipelineFailOps env.now e
      | Except.ok result =>
          match env.assignmentInsertError, result.assignments with
          | some e, _ :: _ => pipelineFailOps env.now e
          | _, _ =>
              [RunOp.toRunning env.now,
               RunOp.toCompleted result.generationCount result.fitnessScore
                 (result.executionTime / 1000) distId env.now]

/-- Interleaving step: either the pipeline performs its next pending
write, or a cancel request arrives at an arbitrary time. -/
inductive Step : OptimizationRun × List RunOp → OptimizationRun × List RunOp → Prop where
  | pipe (r : OptimizationRun) (op : RunOp) (rest : List RunOp) :
      Step (r, op :: rest) (applyRunOp r op, rest)
  | cancel (r : OptimizationRun) (ops : List RunOp) (now : Nat) :
      Step (r, ops) (cancelRun r now, ops)

/-- A run-row state reachable from launch: some interleaving of the
pipeline's writes with cancel requests has occurred. -/
def RunReachable (env : Env) (run0 : OptimizationRun) (distId : Nat)
    (s : OptimizationRun × List RunOp) : Prop :=
  Relation.ReflTransGen Step (run0, pipelineRunOps env run0 distId) s

/-! ## The run-row invariant -/

/-- The invariant of claim C3: a distribution id exactly on COMPLETED
runs, an error message exactly on FAILED runs. -/
def RunInv (r : OptimizationRun) : Prop :=
  (r.distributionId ≠ none ↔ r.status = RunStatus.COMPLETED) ∧
    (r.errorMessage ≠ none ↔ r.status = RunStatus.FAILED)

/-- Precondition on the current row under which the next pipeline write
keeps `RunInv`; it constrains only the two nullable columns the invariant
is about. -/
def condFor (op : RunOp) (r : OptimizationRun) : Prop :=
  match op with
  | RunOp.toRunning _ => r.errorMessage = none ∧ r.distributionId = none
  | RunOp.toFailed _ _ => r.distributionId = none
  | RunOp.toCompleted _ _ _ _ _ => r.errorMessage = none

/-- All pending pipeline writes are invariant-compatible, each against the
row it will actually see if no cancel intervenes (cancels do not touch the
two relevant columns, see `opsOK_congr`). -/
def opsOK : OptimizationRun → List RunOp → Prop
  | _, [] => True
  | r, op :: rest => condFor op r ∧ opsOK (applyRunOp r op) rest

/-- The step-closed property: invariant now, and every pending write
compatible. -/
def PhiState (s : OptimizationRun × List RunOp) : Prop :=
  RunInv s.1 ∧ opsOK s.1 s.2

/-! ## Concrete example world (used by counterexamples and witnesses) -/

/-- Three students of school year 1, grade 1. -/
def exStudents : List Student :=
  [⟨1, 1, 1, "Ana", "F", some 8, some 7, false⟩,
   ⟨2, 1, 1, "Bia", "F", none, none, false⟩,
   ⟨3, 1, 1, "Caio", "M", some 0, some 5, true⟩]

/-- Two classes of capacity 2 each for the same scope. -/
def exClasses : List SchoolClass :=
  [⟨10, 1, 1, "1A", 2⟩, ⟨11, 1, 1, "1B", 2⟩]

/-- A successful solver response assigning each student once. -/
def exResponse : SolverResponse :=
  ⟨true, 950, 42, 1200, [⟨1, 10⟩, ⟨2, 10⟩, ⟨3, 11⟩], none⟩

/-- Baseline environment: feasible scope, solver succeeds, inserts work.
Constraint/sibling rows mix school years 1 and 2; preference rows belong
to different years and grades, to exercise scoping. -/
def exEnv : Env :=
  { now := 5
    students := exStudents
    classes := exClasses
    constraints := [⟨1, 1, 1, 2, "SEPARATE", some 0⟩, ⟨2, 2, 1, 3, "GROUP", none⟩]
    preferences := [⟨1, 1, 2, 1, 1, 1⟩, ⟨2, 3, 1, 2, 2, 3⟩]
    siblingRules := [⟨1, 1, 1, 3, "SAME_CLASS"⟩, ⟨2, 2, 1, 2, "DIFFERENT_CLASS"⟩]
    configurations := []
    solverOutcome := SolverOutcome.response exResponse
    assignmentInsertError := none }

/-- A freshly created PENDING run for scope (1, 1). -/
def exRun : OptimizationRun := freshRun 7 1 1 none 150 100

/-- Database holding just the fresh run. -/
def exDB : DB := ⟨[exRun], [], [], 100⟩

/-- Environment with a single class of capacity 2 for 3 students. -/
def exEnvCap : Env := { exEnv with classes := [⟨10, 1, 1, "1A", 2⟩] }

/-- Environment where the bulk assignment INSERT fails. -/
def exEnvIns : Env := { exEnv with assignmentInsertError := some "duplicate key" }

/-- Environment where the solver succeeds with an empty assignment list
and the INSERT would fail if it were attempted. -/
def exEnvEmpty : Env :=
  { exEnv with
    solverOutcome := SolverOutcome.response { exResponse with assignments := [] }
    assignmentInsertError := some "would fail" }

/-- Database whose run is already CANCELLED. -/
def exDBCancelled : DB :=
  ⟨[{ exRun with status := RunStatus.CANCELLED, completedAt := some 4 }], [], [], 100⟩

/-- Database whose run is already COMPLETED. -/
def exDBCompleted : DB :=
  ⟨[{ exRun with
      status := RunStatus.COMPLETED
      progress := 100
      distributionId := some 90 }], [], [], 100⟩

/-- Payload the baseline environment assembles for the fresh run. -/
def exPayload : OptimizationPayload :=
  (prepareOptimizationPayload exEnv exRun).toOption.getD
    ⟨[], [], [], [], [], defaultWeights, 0, 0⟩

/-- A non-default configuration with distinctive weights. -/
def exConfig : Configuration := ⟨3, "Config A", false, ⟨9, 8, 7, 6, 5, 4, 3⟩⟩

/-- The default-flagged configuration. -/
def exConfigDefault : Configuration :=
  ⟨4, "Default", true, ⟨90, 80, 70, 60, 50, 40, 30⟩⟩

/-- Environment carrying both configurations. -/
def exEnvCfg : Env := { exEnv with configurations := [exConfig, exConfigDefault] }

/-- Run referencing configuration 3 explicitly. -/
def exRunCfg : OptimizationRun := freshRun 8 1 1 (some 3) 150 100

/-- Database holding the configured run. -/
def exDBCfg : DB := ⟨[exRunCfg], [], [], 100⟩

/-- Payload assembled for the configured run. -/
def exPayloadCfg : OptimizationPayload :=
  (prepareOptimizationPayload exEnvCfg exRunCfg).toOption.getD
    ⟨[], [], [], [], [], defaultWeights, 0, 0⟩

/-- A solver response reporting failure with its own message. -/
def exSolverFailResponse : SolverResponse :=
  ⟨false, 0, 0, 0, [], some "solver says no"⟩

/-! ## Helper lemmas -/

theorem applyRunUpdate_id (r : OptimizationRun) (u : UpdateOptimizationRunDTO) :
    (applyRunUpdate r u).id = r.id := rfl

theorem find?_map_update (l : List OptimizationRun) (i : Nat) (u : UpdateOptimizationRunDTO) :
    (l.map (fun x => if x.id == i then applyRunUpdate x u else x)).find? (fun x => x.id == i) =
      (l.find? (fun x => x.id == i)).map (fun r => applyRunUpdate r u) := by
  induction l with
  | nil => rfl
  | cons x xs ih =>
      by_cases hx : x.id == i
      · simp [List.find?, hx, applyRunUpdate_id]
      · simp only [List.map_cons, List.find?]
        rw [if_neg hx]
        simp only [hx]
        exact ih

theorem find_update (db : DB) (i : Nat) (u : UpdateOptimizationRunDTO)
    (r : OptimizationRun) (h : findOptimizationRunById db i = some r) :
    findOptimizationRunById (updateOptimizationRun db i u).1 i =
      some (applyRunUpdate r u) := by
  unfold findOptimizationRunById at h ⊢
  unfold updateOptimizationRun
  rw [h]
  simp only
  rw [find?_map_update, h]
  rfl

theorem update_distributions (db : DB) (i : Nat) (u : UpdateOptimizationRunDTO) :
    (updateOptimizationRun db i u).1.distributions = db.distributions := by
  unfold updateOptimizationRun
  cases db.runs.find? (fun r => r.id == i) <;> rfl

theorem update_assignments (db : DB) (i : Nat) (u : UpdateOptimizationRunDTO) :
    (updateOptimizationRun db i u).1.assignments = db.assignments := by
  unfold updateOptimizationRun
  cases db.runs.find? (fun r => r.id == i) <;> rfl

theorem update_nextDistributionId (db : DB) (i : Nat) (u : UpdateOptimizationRunDTO) :
    (updateOptimizationRun db i u).1.nextDistributionId = db.nextDistributionId := by
  unfold updateOptimizationRun
  cases db.runs.find? (fun r => r.id == i) <;> rfl

theorem createAssignments_ok (db : DB) (err : Option String)
    (rows : List DistributionAssignment) (db2 : DB)
    (h : createAssignments db err rows = Except.ok db2) :
    db2.runs = db.runs ∧ db2.distributions = db.distributions ∧
      db2.nextDistributionId = db.nextDistributionId := by
  unfold createAssignments at h
  split at h
  · cases h
    exact ⟨rfl, rfl, rfl⟩
  · match err, h with
    | none, h => cases h; exact ⟨rfl, rfl, rfl⟩

theorem distributionCreate_runs (db : DB) (dto : CreateDistributionDTO) :
    (distributionCreate db dto).1.runs = db.runs := rfl

theorem distributionCreate_id (db : DB) (dto : CreateDistributionDTO) :
    (distributionCreate db dto).2.id = db.nextDistributionId := rfl

theorem findOptimizationRunById_runs_eq (db db2 : DB) (i : Nat) (h : db2.runs = db.runs) :
    findOptimizationRunById db2 i = findOptimizationRunById db i := by
  unfold findOptimizationRunById
  rw [h]

theorem find_distCreate (db : DB) (dto : CreateDistributionDTO) (i : Nat) :
    findOptimizationRunById (distributionCreate db dto).1 i = findOptimizationRunById db i :=
  findOptimizationRunById_runs_eq _ _ _ (distributionCreate_runs _ _)

theorem find_setAssignments (db : DB) (a : List DistributionAssignment) (i : Nat) :
    findOptimizationRunById { db with assignments := a } i = findOptimizationRunById db i := rfl

theorem startOptimization_run_row (env : Env) (db : DB) (runId : Nat)
    (run : OptimizationRun) (h : findOptimizationRunById db runId = some run) :
    findOptimizationRunById (startOptimization env db runId) runId =
      some ((pipelineRunOps env run db.nextDistributionId).foldl applyRunOp run) := by
  have h1 := find_update db runId (dtoRunning env.now) run h
  unfold startOptimization executeOptimization pipelineRunOps
  rw [h]
  simp only
  cases hp : prepareOptimizationPayload env run with
  | error e =>
      simp only [List.foldl, pipelineFailOps, applyRunOp]
      exact find_update _ runId _ _ (find_update _ runId _ _ h1)
  | ok payload =>
      cases hs : callPythonService env.solverOutcome with
      | error e =>
          simp only [List.foldl, pipelineFailOps, applyRunOp]
          exact find_update _ runId _ _ (find_update _ runId _ _ h1)
      | ok result =>
          simp only
          cases he : env.assignmentInsertError with
          | some e =>
              cases ha : result.assignments with
              | cons x xs =>
                  simp only [ha, List.map_cons, createAssignments, List.isEmpty,
                    Bool.false_eq_true, if_false, List.foldl, pipelineFailOps, applyRunOp]
                  exact find_update _ runId _ _
                    (find_update _ runId _ _ ((find_distCreate _ _ _).trans h1))
              | nil =>
                  simp only [ha, List.map_nil, createAssignments, List.isEmpty, if_true,
                    List.foldl, applyRunOp, distributionCreate_id, update_nextDistributionId]
                  exact find_update _ runId _ _ ((find_distCreate _ _ _).trans h1)
          | none =>
              cases ha : result.assignments with
              | cons x xs =>
                  simp only [ha, List.map_cons, createAssignments, List.isEmpty,
                    Bool.false_eq_true, if_false, List.foldl, applyRunOp,
                    distributionCreate_id, update_nextDistributionId]
                  exact find_update _ runId _ _
                    ((find_setAssignments _ _ _).trans ((find_distCreate _ _ _).trans h1))
              | nil =>
                  simp only [ha, List.map_nil, createAssignments, List.isEmpty, if_true,
                    List.foldl, applyRunOp, distributionCreate_id, update_nextDistributionId]
                  exact find_update _ runId _ _ ((find_distCreate _ _ _).trans h1)

theorem foldl_pipelineFailOps (r : OptimizationRun) (now : Nat) (e : String) :
    (pipelineFailOps now e).foldl applyRunOp r =
      { r with
        status := RunStatus.FAILED
        errorMessage := some (orEmpty e "Erro desconhecido")
        startedAt := some now
        completedAt := some now } := rfl

theorem foldl_successOps (r : OptimizationRun) (now gen : Nat) (fitness : Int)
    (execSecs distId : Nat) :
    ([RunOp.toRunning now,
      RunOp.toCompleted gen fitness execSecs distId now]).foldl applyRunOp r =
      { r with
        status := RunStatus.COMPLETED
        progress := 100
        currentGeneration := gen
        bestFitness := some fitness
        executionTimeSeconds := some execSecs
        distributionId := some distId
        startedAt := some now
        completedAt := some now } := rfl

/-! ## The run-row invariant and its preservation -/




theorem applyRunOp_errorMessage (r : OptimizationRun) (op : RunOp) :
    (applyRunOp r op).errorMessage =
      (match op with
        | RunOp.toFailed m _ => some m
        | _ => r.errorMessage) := by
  cases op <;> rfl

theorem applyRunOp_distributionId (r : OptimizationRun) (op : RunOp) :
    (applyRunOp r op).distributionId =
      (match op with
        | RunOp.toCompleted _ _ _ d _ => some d
        | _ => r.distributionId) := by
  cases op <;> rfl

theorem cancelRun_errorMessage (r : OptimizationRun) (now : Nat) :
    (cancelRun r now).errorMessage = r.errorMessage := by
  unfold cancelRun
  split <;> rfl

theorem cancelRun_distributionId (r : OptimizationRun) (now : Nat) :
    (cancelRun r now).distributionId = r.distributionId := by
  unfold cancelRun
  split <;> rfl

theorem condFor_congr (op : RunOp) (r₁ r₂ : OptimizationRun)
    (hm : r₁.errorMessage = r₂.errorMessage) (hd : r₁.distributionId = r₂.distributionId)
    (h : condFor op r₁) : condFor op r₂ := by
  cases op <;> simp only [condFor] at h ⊢ <;> simp_all

theorem opsOK_congr (ops : List RunOp) (r₁ r₂ : OptimizationRun)
    (hm : r₁.errorMessage = r₂.errorMessage) (hd : r₁.distributionId = r₂.distributionId)
    (h : opsOK r₁ ops) : opsOK r₂ ops := by
  induction ops generalizing r₁ r₂ with
  | nil => trivial
  | cons op rest ih =>
      obtain ⟨hc, hrest⟩ := h
      refine ⟨condFor_congr op r₁ r₂ hm hd hc, ih _ _ ?_ ?_ hrest⟩
      · rw [applyRunOp_errorMessage, applyRunOp_errorMessage]
        cases op <;> simp [hm]
      · rw [applyRunOp_distributionId, applyRunOp_distributionId]
        cases op <;> simp [hd]


theorem step_preserves_phi (s t : OptimizationRun × List RunOp)
    (hphi : PhiState s) (hstep : Step s t) : PhiState t := by
  obtain ⟨hinv, hok⟩ := hphi
  cases hstep with
  | pipe r op rest =>
      obtain ⟨hc, hrest⟩ := hok
      dsimp only at hinv hc hrest ⊢
      refine ⟨?_, hrest⟩
      cases op with
      | toRunning now =>
          obtain ⟨hm, hd⟩ := hc
          constructor
          · simp [applyRunOp, applyRunUpdate, dtoRunning, setOpt, hd]
          · simp [applyRunOp, applyRunUpdate, dtoRunning, setOpt, hm]
      | toFailed m now =>
          have hd : r.distributionId = none := hc
          constructor
          · simp [applyRunOp, applyRunUpdate, dtoFailed, setOpt, hd]
          · simp [applyRunOp, applyRunUpdate, dtoFailed, setOpt]
      | toCompleted gen fit ex d now =>
          have hm : r.errorMessage = none := hc
          constructor
          · simp [applyRunOp, applyRunUpdate, dtoCompleted, setOpt]
          · simp [applyRunOp, applyRunUpdate, dtoCompleted, setOpt, hm]
  | cancel r ops now =>
      dsimp only at hinv hok ⊢
      refine ⟨?_, opsOK_congr ops r _ (cancelRun_errorMessage r now).symm
        (cancelRun_distributionId r now).symm hok⟩
      unfold cancelRun
      split
      · exact hinv
      · rename_i hterm
        push_neg at hterm
        obtain ⟨hnc, hnf⟩ := hterm
        have hd : r.distributionId = none := by
          by_contra hx
          exact hnc (hinv.1.mp hx)
        have hm : r.errorMessage = none := by
          by_contra hx
          exact hnf (hinv.2.mp hx)
        constructor
        · simp [applyRunUpdate, dtoCancelled, setOpt, hd]
        · simp [applyRunUpdate, dtoCancelled, setOpt, hm]

theorem reachable_phi (start s : OptimizationRun × List RunOp)
    (h0 : PhiState start) (h : Relation.ReflTransGen Step start s) : PhiState s := by
  induction h with
  | refl => exact h0
  | tail hab hbc ih => exact step_preserves_phi _ _ ih hbc

theorem phi_init (env : Env) (run0 : OptimizationRun) (distId : Nat)
    (hm : run0.errorMessage = none) (hd : run0.distributionId = none)
    (hnc : run0.status ≠ RunStatus.COMPLETED) (hnf : run0.status ≠ RunStatus.FAILED) :
    PhiState (run0, pipelineRunOps env run0 distId) := by
  have hinv : RunInv run0 := by
    constructor
    · simp only [hd, ne_eq, not_true_eq_false, false_iff]
      exact hnc
    · simp only [hm, ne_eq, not_true_eq_false, false_iff]
      exact hnf
  refine ⟨hinv, ?_⟩
  have hfail : ∀ e, opsOK run0 (pipelineFailOps env.now e) := by
    intro e
    simp only [pipelineFailOps, opsOK, condFor, applyRunOp, applyRunUpdate, dtoRunning,
      dtoFailed, setOpt]
    simp [hm, hd]
  have hsucc : ∀ gen fit ex d,
      opsOK run0 [RunOp.toRunning env.now, RunOp.toCompleted gen fit ex d env.now] := by
    intro gen fit ex d
    simp only [opsOK, condFor, applyRunOp, applyRunUpdate, dtoRunning, dtoCompleted, setOpt]
    simp [hm, hd]
  show opsOK run0 (pipelineRunOps env run0 distId)
  unfold pipelineRunOps
  split
  · exact hfail _
  · split
    · exact hfail _
    · split
      · exact hfail _
      · exact hsucc _ _ _ _

theorem pipelineRunOps_shape (env : Env) (run : OptimizationRun) (distId : Nat) :
    (∃ e, pipelineRunOps env run distId = pipelineFailOps env.now e) ∨
    (∃ gen fit ex, pipelineRunOps env run distId =
      [RunOp.toRunning env.now, RunOp.toCompleted gen fit ex distId env.now]) := by
  unfold pipelineRunOps
  split
  · exact Or.inl ⟨_, rfl⟩
  · split
    · exact Or.inl ⟨_, rfl⟩
    · split
      · exact Or.inl ⟨_, rfl⟩
      · exact Or.inr ⟨_, _, _, rfl⟩

theorem insufficientCapacityMsg_ne_empty (a b : Nat) :
    insufficientCapacityMsg a b ≠ "" := by
  intro hx
  have hlen := congrArg String.length hx
  rw [insufficientCapacityMsg] at hlen
  simp only [String.length_append] at hlen
  have h25 : ("Capacidade insuficiente: " : String).length = 25 := by decide
  have h0 : ("" : String).length = 0 := rfl
  omega

theorem step_terminal_stable (s t : OptimizationRun × List RunOp)
    (hphi : PhiState s) (hstep : Step s t)
    (hterm : s.1.status = RunStatus.COMPLETED ∨ s.1.status = RunStatus.FAILED) :
    t.1.status = s.1.status := by
  obtain ⟨⟨hi1, hi2⟩, hok⟩ := hphi
  cases hstep with
  | pipe r op rest =>
      obtain ⟨hc, _⟩ := hok
      dsimp only at hi1 hi2 hc hterm ⊢
      cases op with
      | toRunning now =>
          obtain ⟨hm, hd⟩ := hc
          cases hterm with
          | inl hcomp => exact absurd hd (hi1.mpr hcomp)
          | inr hfail => exact absurd hm (hi2.mpr hfail)
      | toFailed m now =>
          have hd : r.distributionId = none := hc
          cases hterm with
          | inl hcomp => exact absurd hd (hi1.mpr hcomp)
          | inr hfail =>
              simp [applyRunOp, applyRunUpdate, dtoFailed, setOpt, hfail]
      | toCompleted gen fit ex d now =>
          have hm : r.errorMessage = none := hc
          cases hterm with
          | inl hcomp =>
              simp [applyRunOp, applyRunUpdate, dtoCompleted, setOpt, hcomp]
          | inr hfail => exact absurd hm (hi2.mpr hfail)
  | cancel r ops now =>
      dsimp only at hterm ⊢
      unfold cancelRun
      rw [if_pos hterm]

theorem steps_terminal_stable (s t : OptimizationRun × List RunOp)
    (hphi : PhiState s) (hsteps : Relation.ReflTransGen Step s t)
    (hterm : s.1.status = RunStatus.COMPLETED ∨ s.1.status = RunStatus.FAILED) :
    t.1.status = s.1.status := by
  induction hsteps with
  | refl => rfl
  | tail hab hbc ih =>
      rename_i b c
      have hphib : PhiState b := reachable_phi s b hphi hab
      have hb := ih
      have htermb : b.1.status = RunStatus.COMPLETED ∨ b.1.status = RunStatus.FAILED := by
        rw [hb]
        exact hterm
      rw [step_terminal_stable b c hphib hbc htermb, hb]

theorem distributionCreate_distributions (db : DB) (dto : CreateDistributionDTO) :
    (distributionCreate db dto).1.distributions =
      db.distributions ++ [(distributionCreate db dto).2] := rfl

theorem distributionCreate_assignments (db : DB) (dto : CreateDistributionDTO) :
    (distributionCreate db dto).1.assignments = db.assignments := rfl

theorem prepare_ok_eq (env : Env) (run : OptimizationRun) (payload : OptimizationPayload)
    (h : prepareOptimizationPayload env run = Except.ok payload) :
    payload =
      { students := (studentFindAll env.students run.schoolYearId run.gradeLevelId).map (fun s =>
          { id := s.id, fullName := s.fullName, gender := s.gender,
            academicAverage := jsOrInt s.academicAverage 0,
            behavioralScore := jsOrInt s.behavioralScore 0,
            hasSpecialNeeds := s.hasSpecialNeeds }),
        classes := (classFindAll env.classes run.schoolYearId run.gradeLevelId).map (fun c =>
          { id := c.id, name := c.name, maxCapacity := c.capacity }),
        constraints := (constraintFindAll env.constraints run.schoolYearId).map (fun c =>
          { studentAId := c.studentAId, studentBId := c.studentBId,
            constraintTypeWeight := jsOrInt c.constraintTypeWeight 500, action := c.action }),
        preferences := (preferenceFindAll env.preferences).map (fun p =>
          { studentId := p.studentId, preferredStudentId := p.preferredStudentId,
            priority := p.priority }),
        siblingRules := (siblingFindAll env.siblingRules run.schoolYearId).map (fun r =>
          { studentAId := r.studentAId, studentBId := r.studentBId, ruleType := r.ruleType }),
        weights := resolveWeights env.configurations run.configurationId,
        configTotalGenerations := run.totalGenerations,
        configPopulationSize := run.populationSize } := by
  unfold prepareOptimizationPayload at h
  simp only [] at h
  split at h
  · exact absurd h (by simp)
  · split at h
    · exact absurd h (by simp)
    · split at h
      · exact absurd h (by simp)
      · injection h with h2
        exact h2.symm


theorem prepare_capacity_error (env : Env) (run : OptimizationRun)
    (hs : studentFindAll env.students run.schoolYearId run.gradeLevelId ≠ [])
    (hc : classFindAll env.classes run.schoolYearId run.gradeLevelId ≠ [])
    (hcap : (classFindAll env.classes run.schoolYearId run.gradeLevelId).foldl
        (fun sum c => sum + c.capacity) 0 <
      (studentFindAll env.students run.schoolYearId run.gradeLevelId).length) :
    prepareOptimizationPayload env run = Except.error
      (insufficientCapacityMsg
        (studentFindAll env.students run.schoolYearId run.gradeLevelId).length
        ((classFindAll env.classes run.schoolYearId run.gradeLevelId).foldl
          (fun sum c => sum + c.capacity) 0)) := by
  have hs0 : ¬((studentFindAll env.students run.schoolYearId run.gradeLevelId).length = 0) := by
    simpa [List.length_eq_zero] using hs
  have hc0 : ¬((classFindAll env.classes run.schoolYearId run.gradeLevelId).length = 0) := by
    simpa [List.length_eq_zero] using hc
  unfold prepareOptimizationPayload
  simp only []
  rw [if_neg hs0, if_neg hc0, if_pos hcap]


/-! ## Claim theorems -/

/-- C1: the claim asserts Distribution + assignments are committed in one
atomic transaction with full rollback.  The code issues two independent
statements with no transaction: when the bulk INSERT fails after the
Distribution INSERT succeeded, the orphan Distribution row (tagged with
the run id in its metadata) stays visible while the run is FAILED. -/
theorem c1_commit_not_atomic_cex :
    (executeOptimization exEnvIns exDB 7).2.2 = Except.error "duplicate key" ∧
    ((executeOptimization exEnvIns exDB 7).1.distributions.map
      (fun d => d.metaRunId)) = [some 7] ∧
    (executeOptimization exEnvIns exDB 7).1.assignments = [] ∧
    (findOptimizationRunById (executeOptimization exEnvIns exDB 7).1 7).map
      (fun r => r.status) = some RunStatus.FAILED := by decide

/-- C1 (amended): the Distribution INSERT and the assignment bulk INSERT
are separate statements outside any transaction.  If the assignment INSERT
fails after the Distribution row was created, the run is marked FAILED
with the error, the orphan Distribution row remains visible, and no
assignment row is inserted (the single multi-row INSERT fails whole, so a
proper nonempty subset of the assignments is never visible). -/
theorem c1_commit_failure_leaves_orphan (env : Env) (db : DB) (runId : Nat)
    (run : OptimizationRun) (payload : OptimizationPayload) (result : SolverResponse)
    (e : String)
    (h : findOptimizationRunById db runId = some run)
    (hp : prepareOptimizationPayload env run = Except.ok payload)
    (hsv : callPythonService env.solverOutcome = Except.ok result)
    (he : env.assignmentInsertError = some e)
    (hne : result.assignments ≠ []) (hee : e ≠ "") :
    (executeOptimization env db runId).2.2 = Except.error e ∧
    (∃ d, (executeOptimization env db runId).1.distributions = db.distributions ++ [d] ∧
      d.metaRunId = some runId) ∧
    (executeOptimization env db runId).1.assignments = db.assignments ∧
    (∃ r2, findOptimizationRunById (executeOptimization env db runId).1 runId = some r2 ∧
      r2.status = RunStatus.FAILED ∧ r2.errorMessage = some e ∧
      r2.distributionId = run.distributionId) := by
  obtain ⟨x, xs, hxx⟩ := List.exists_cons_of_ne_nil hne
  simp only [executeOptimization, h, hp, hsv, he, hxx, List.map_cons, createAssignments,
    List.isEmpty_cons, Bool.false_eq_true, if_false]
  refine ⟨trivial, ?_, ?_, ?_⟩
  · refine ⟨(distributionCreate (updateOptimizationRun db runId (dtoRunning env.now)).1
      { schoolYearId := run.schoolYearId, gradeLevelId := run.gradeLevelId,
        configurationId := run.configurationId, name := distributionName env.now,
        fitnessScore := some result.fitnessScore, isFinal := false, isOptimized := true,
        metaGenerationCount := some result.generationCount,
        metaExecutionTime := some result.executionTime, metaRunId := some runId }).2, ?_, rfl⟩
    rw [update_distributions, distributionCreate_distributions, update_distributions]
  · rw [update_assignments, distributionCreate_assignments, update_assignments]
  · have h1 := find_update db runId (dtoRunning env.now) run h
    exact ⟨_, find_update _ runId _ _ ((find_distCreate _ _ _).trans h1), rfl,
      by simp [applyRunUpdate, dtoFailed, setOpt, orEmpty, hee], rfl⟩

/-- C1 witness for the amended theorem at the concrete failing world. -/
theorem c1_commit_failure_leaves_orphan_witness :
    (executeOptimization exEnvIns exDB 7).2.2 = Except.error "duplicate key" ∧
    (∃ d, (executeOptimization exEnvIns exDB 7).1.distributions =
        exDB.distributions ++ [d] ∧ d.metaRunId = some 7) ∧
    (executeOptimization exEnvIns exDB 7).1.assignments = exDB.assignments ∧
    (∃ r2, findOptimizationRunById (executeOptimization exEnvIns exDB 7).1 7 = some r2 ∧
      r2.status = RunStatus.FAILED ∧ r2.errorMessage = some "duplicate key" ∧
      r2.distributionId = exRun.distributionId) :=
  c1_commit_failure_leaves_orphan exEnvIns exDB 7 exRun exPayload exResponse
    "duplicate key" rfl rfl rfl rfl (by decide) (by decide)

/-- C2: the claim says no operation moves a run out of a terminal state.
Counterexample using only public operations: cancel a PENDING run (it
becomes CANCELLED, a terminal state), then let its already-scheduled
background pipeline execute; the pipeline overwrites the status blindly
and the run ends COMPLETED. -/
theorem c2_cancelled_run_resumes_cex :
    ((findOptimizationRunById (cancelOptimization exEnv exDB 7).1 7).map
      (fun r => r.status) = some RunStatus.CANCELLED) ∧
    ((findOptimizationRunById
        (startOptimization exEnv (cancelOptimization exEnv exDB 7).1 7) 7).map
      (fun r => r.status) = some RunStatus.COMPLETED) := by decide

/-- C2 (amended): COMPLETED and FAILED are genuinely terminal — no
interleaving of pipeline writes and cancels changes the status of a run
once it is COMPLETED or FAILED — but CANCELLED is not: the guard-free
`updateOptimizationRun` lets the pipeline overwrite a cancelled run. -/
theorem c2_completed_failed_terminal (env : Env) (id sy g : Nat) (cfg : Option Nat)
    (totGen popSize distId : Nat) (s t : OptimizationRun × List RunOp)
    (hreach : RunReachable env (freshRun id sy g cfg totGen popSize) distId s)
    (hsteps : Relation.ReflTransGen Step s t)
    (hterm : s.1.status = RunStatus.COMPLETED ∨ s.1.status = RunStatus.FAILED) :
    t.1.status = s.1.status :=
  steps_terminal_stable s t
    (reachable_phi _ s (phi_init env _ distId rfl rfl (fun hx => RunStatus.noConfusion hx)
      (fun hx => RunStatus.noConfusion hx)) hreach)
    hsteps hterm

/-- C2 witness: a concrete COMPLETED state reached by running both
pipeline writes, then hit with a cancel; the status stays COMPLETED. -/
theorem c2_completed_failed_terminal_witness :
    (cancelRun (applyRunOp (applyRunOp exRun (RunOp.toRunning 5))
        (RunOp.toCompleted 42 950 1 100 5)) 9, ([] : List RunOp)).1.status =
      ((applyRunOp (applyRunOp exRun (RunOp.toRunning 5))
        (RunOp.toCompleted 42 950 1 100 5)), ([] : List RunOp)).1.status :=
  c2_completed_failed_terminal exEnv 7 1 1 none 150 100 100
    ((applyRunOp (applyRunOp exRun (RunOp.toRunning 5))
        (RunOp.toCompleted 42 950 1 100 5)), ([] : List RunOp))
    (cancelRun (applyRunOp (applyRunOp exRun (RunOp.toRunning 5))
        (RunOp.toCompleted 42 950 1 100 5)) 9, ([] : List RunOp))
    (Relation.ReflTransGen.tail
      (Relation.ReflTransGen.tail Relation.ReflTransGen.refl
        (Step.pipe exRun (RunOp.toRunning 5) [RunOp.toCompleted 42 950 1 100 5]))
      (Step.pipe (applyRunOp exRun (RunOp.toRunning 5))
        (RunOp.toCompleted 42 950 1 100 5) []))
    (Relation.ReflTransGen.tail Relation.ReflTransGen.refl
      (Step.cancel _ _ 9))
    (Or.inl (by decide))

/-- C3: in every state reachable from run creation by any interleaving of
the background pipeline writes and cancel requests, distributionId is
non-null exactly on COMPLETED and errorMessage is non-null exactly on
FAILED (in particular a CANCELLED run carries no error message). -/
theorem c3_distribution_error_iff (env : Env) (id sy g : Nat) (cfg : Option Nat)
    (totGen popSize distId : Nat) (s : OptimizationRun × List RunOp)
    (h : RunReachable env (freshRun id sy g cfg totGen popSize) distId s) :
    (s.1.distributionId ≠ none ↔ s.1.status = RunStatus.COMPLETED) ∧
    (s.1.errorMessage ≠ none ↔ s.1.status = RunStatus.FAILED) :=
  (reachable_phi _ s (phi_init env _ distId rfl rfl (fun hx => RunStatus.noConfusion hx)
    (fun hx => RunStatus.noConfusion hx)) h).1

/-- C3 witness at the initial reachable state of the concrete world. -/
theorem c3_distribution_error_iff_witness :
    ((freshRun 7 1 1 none 150 100,
        pipelineRunOps exEnv (freshRun 7 1 1 none 150 100) 100).1.distributionId ≠ none ↔
      (freshRun 7 1 1 none 150 100,
        pipelineRunOps exEnv (freshRun 7 1 1 none 150 100) 100).1.status =
        RunStatus.COMPLETED) ∧
    ((freshRun 7 1 1 none 150 100,
        pipelineRunOps exEnv (freshRun 7 1 1 none 150 100) 100).1.errorMessage ≠ none ↔
      (freshRun 7 1 1 none 150 100,
        pipelineRunOps exEnv (freshRun 7 1 1 none 150 100) 100).1.status =
        RunStatus.FAILED) :=
  c3_distribution_error_iff exEnv 7 1 1 none 150 100 100 _ Relation.ReflTransGen.refl

/-- C4: with a non-empty student list, a non-empty class list, and total
capacity strictly below the student count, the background pipeline marks
the run FAILED with the capacity message and performs zero solver calls;
more generally, any payload-assembly failure yields zero solver calls. -/
theorem c4_capacity_precondition (env : Env) (db : DB) (runId : Nat)
    (run : OptimizationRun)
    (h : findOptimizationRunById db runId = some run)
    (hs : studentFindAll env.students run.schoolYearId run.gradeLevelId ≠ [])
    (hc : classFindAll env.classes run.schoolYearId run.gradeLevelId ≠ [])
    (hcap : (classFindAll env.classes run.schoolYearId run.gradeLevelId).foldl
        (fun sum c => sum + c.capacity) 0 <
      (studentFindAll env.students run.schoolYearId run.gradeLevelId).length) :
    solverCalls env db runId = 0 ∧
    (∃ r2, findOptimizationRunById (startOptimization env db runId) runId = some r2 ∧
      r2.status = RunStatus.FAILED ∧
      r2.errorMessage = some (insufficientCapacityMsg
        (studentFindAll env.students run.schoolYearId run.gradeLevelId).length
        ((classFindAll env.classes run.schoolYearId run.gradeLevelId).foldl
          (fun sum c => sum + c.capacity) 0))) ∧
    (∀ env2 db2 id2 run2 e2, findOptimizationRunById db2 id2 = some run2 →
      prepareOptimizationPayload env2 run2 = Except.error e2 →
      solverCalls env2 db2 id2 = 0) := by
  have hprep := prepare_capacity_error env run hs hc hcap
  refine ⟨?_, ?_, ?_⟩
  · simp only [solverCalls, executeOptimization, h, hprep]
  · rw [startOptimization_run_row env db runId run h]
    have hops : pipelineRunOps env run db.nextDistributionId =
        pipelineFailOps env.now (insufficientCapacityMsg
          (studentFindAll env.students run.schoolYearId run.gradeLevelId).length
          ((classFindAll env.classes run.schoolYearId run.gradeLevelId).foldl
            (fun sum c => sum + c.capacity) 0)) := by
      simp only [pipelineRunOps, hprep]
    rw [hops, foldl_pipelineFailOps]
    refine ⟨_, rfl, rfl, ?_⟩
    rw [orEmpty, if_neg (insufficientCapacityMsg_ne_empty _ _)]
  · intro env2 db2 id2 run2 e2 h2 hp2
    simp only [solverCalls, executeOptimization, h2, hp2]

/-- C4 witness: 3 students against a single class of capacity 2. -/
theorem c4_capacity_precondition_witness :
    solverCalls exEnvCap exDB 7 = 0 ∧
    (∃ r2, findOptimizationRunById (startOptimization exEnvCap exDB 7) 7 = some r2 ∧
      r2.status = RunStatus.FAILED ∧
      r2.errorMessage = some (insufficientCapacityMsg
        (studentFindAll exEnvCap.students exRun.schoolYearId exRun.gradeLevelId).length
        ((classFindAll exEnvCap.classes exRun.schoolYearId exRun.gradeLevelId).foldl
          (fun sum c => sum + c.capacity) 0))) ∧
    (∀ env2 db2 id2 run2 e2, findOptimizationRunById db2 id2 = some run2 →
      prepareOptimizationPayload env2 run2 = Except.error e2 →
      solverCalls env2 db2 id2 = 0) :=
  c4_capacity_precondition exEnvCap exDB 7 exRun rfl (by decide) (by decide) (by decide)

/-- C5: the claim says cancel succeeds exactly on PENDING or RUNNING runs.
Counterexample: a run already CANCELLED is cancelled "again" — the guard
only rejects COMPLETED and FAILED, so the call returns true and refreshes
completedAt instead of returning false. -/
theorem c5_cancel_cancelled_cex :
    ((findOptimizationRunById exDBCancelled 7).map (fun r => r.status) =
      some RunStatus.CANCELLED) ∧
    (cancelOptimization exEnv exDBCancelled 7).2 = true ∧
    (findOptimizationRunById (cancelOptimization exEnv exDBCancelled 7).1 7).map
      (fun r => r.completedAt) = some (some 5) := by decide

/-- C5 (amended): cancel returns true and writes CANCELLED/completedAt
exactly when the run exists and its status is neither COMPLETED nor FAILED
— that is on PENDING, RUNNING, and also on an already-CANCELLED run; for a
missing, COMPLETED or FAILED run it returns false and the database is
untouched. -/
theorem c5_cancel_semantics (env : Env) (db : DB) (runId : Nat) :
    (findOptimizationRunById db runId = none →
      cancelOptimization env db runId = (db, false)) ∧
    (∀ r, findOptimizationRunById db runId = some r →
      (r.status = RunStatus.COMPLETED ∨ r.status = RunStatus.FAILED) →
      cancelOptimization env db runId = (db, false)) ∧
    (∀ r, findOptimizationRunById db runId = some r →
      ¬(r.status = RunStatus.COMPLETED ∨ r.status = RunStatus.FAILED) →
      (cancelOptimization env db runId).2 = true ∧
      findOptimizationRunById (cancelOptimization env db runId).1 runId =
        some { r with status := RunStatus.CANCELLED, completedAt := some env.now } ∧
      (cancelOptimization env db runId).1.distributions = db.distributions ∧
      (cancelOptimization env db runId).1.assignments = db.assignments) := by
  refine ⟨?_, ?_, ?_⟩
  · intro hn
    simp only [cancelOptimization, hn]
  · intro r hr hterm
    simp only [cancelOptimization, hr, if_pos hterm]
  · intro r hr hterm
    simp only [cancelOptimization, hr, if_neg hterm]
    exact ⟨trivial, find_update db runId (dtoCancelled env.now) r hr,
      update_distributions db runId (dtoCancelled env.now),
      update_assignments db runId (dtoCancelled env.now)⟩

/-- C5 witness: cancelling the PENDING run of the concrete world. -/
theorem c5_cancel_semantics_witness :
    (cancelOptimization exEnv exDB 7).2 = true ∧
    findOptimizationRunById (cancelOptimization exEnv exDB 7).1 7 =
      some { exRun with status := RunStatus.CANCELLED, completedAt := some exEnv.now } ∧
    (cancelOptimization exEnv exDB 7).1.distributions = exDB.distributions ∧
    (cancelOptimization exEnv exDB 7).1.assignments = exDB.assignments :=
  (c5_cancel_semantics exEnv exDB 7).2.2 exRun rfl (by decide)

/-- C6: whenever the background pipeline of an existing run terminates,
the run is never left in RUNNING: it is COMPLETED, or FAILED with a
non-null error message (every exception, classified or not, is caught and
mapped to a FAILED update). -/
theorem c6_no_run_stuck_in_running (env : Env) (db : DB) (runId : Nat)
    (run : OptimizationRun)
    (h : findOptimizationRunById db runId = some run) :
    ∃ r2, findOptimizationRunById (startOptimization env db runId) runId = some r2 ∧
      r2.status ≠ RunStatus.RUNNING ∧
      (r2.status = RunStatus.COMPLETED ∨
        (r2.status = RunStatus.FAILED ∧ r2.errorMessage ≠ none)) := by
  rw [startOptimization_run_row env db runId run h]
  rcases pipelineRunOps_shape env run db.nextDistributionId with ⟨e, hsh⟩ | ⟨gen, fit, ex, hsh⟩
  · rw [hsh, foldl_pipelineFailOps]
    exact ⟨_, rfl, fun hx => RunStatus.noConfusion hx,
      Or.inr ⟨rfl, fun hx => Option.noConfusion hx⟩⟩
  · rw [hsh, foldl_successOps]
    exact ⟨_, rfl, fun hx => RunStatus.noConfusion hx, Or.inl rfl⟩

/-- C6 witness at the concrete successful world. -/
theorem c6_no_run_stuck_in_running_witness :
    ∃ r2, findOptimizationRunById (startOptimization exEnv exDB 7) 7 = some r2 ∧
      r2.status ≠ RunStatus.RUNNING ∧
      (r2.status = RunStatus.COMPLETED ∨
        (r2.status = RunStatus.FAILED ∧ r2.errorMessage ≠ none)) :=
  c6_no_run_stuck_in_running exEnv exDB 7 exRun rfl

/-- C7: the solver client posts exactly once per invocation with a 600000
millisecond (ten minute) timeout; a timed-out request (`ECONNABORTED`)
fails with the timeout message, distinct from the connection-refused
message (which names the expected solver port for diagnosis); a response
with `success: false` fails with the solver-provided message; and the
pipeline never performs more than one solver call per run — there is no
retry path. -/
theorem c7_solver_client_classification :
    requestTimeoutMs = 600 * 1000 ∧
    callPythonService SolverOutcome.connAborted = Except.error solverTimeoutMsg ∧
    callPythonService SolverOutcome.connRefused = Except.error solverUnavailableMsg ∧
    solverTimeoutMsg ≠ solverUnavailableMsg ∧
    (∀ data m, data.success = false → data.message = some m → m ≠ "" →
      callPythonService (SolverOutcome.response data) = Except.error m) ∧
    (∀ env db runId, solverCalls env db runId ≤ 1) := by
  refine ⟨rfl, rfl, rfl, by decide, ?_, ?_⟩
  · intro data m hfail hmsg hne
    simp [callPythonService, hfail, orElseStr, hmsg, hne]
  · intro env db runId
    unfold solverCalls
    cases hf : findOptimizationRunById db runId with
    | none => simp [executeOptimization, hf]
    | some run =>
        cases hp : prepareOptimizationPayload env run with
        | error e => simp [executeOptimization, hf, hp]
        | ok payload =>
            cases hs : callPythonService env.solverOutcome with
            | error e => simp [executeOptimization, hf, hp, hs]
            | ok result =>
                cases he : env.assignmentInsertError with
                | some e =>
                    cases ha : result.assignments with
                    | nil =>
                        simp [executeOptimization, hf, hp, hs, he, ha, createAssignments]
                    | cons x xs =>
                        simp [executeOptimization, hf, hp, hs, he, ha, createAssignments]
                | none =>
                    cases ha : result.assignments with
                    | nil =>
                        simp [executeOptimization, hf, hp, hs, he, ha, createAssignments]
                    | cons x xs =>
                        simp [executeOptimization, hf, hp, hs, he, ha, createAssignments]

/-- C7 witness: a concrete rejected response surfaces the solver message. -/
theorem c7_solver_client_classification_witness :
    callPythonService (SolverOutcome.response exSolverFailResponse) =
      Except.error "solver says no" :=
  c7_solver_client_classification.2.2.2.2.1 exSolverFailResponse "solver says no"
    rfl rfl (by decide)

/-- C8: the payload weights come from the run-referenced configuration
when that id is truthy and resolves; otherwise from the default-flagged
configuration; otherwise they are the hard-coded fallback vector with
exactly the seven documented values. -/
theorem c8_weight_resolution (env : Env) (run : OptimizationRun)
    (payload : OptimizationPayload)
    (h : prepareOptimizationPayload env run = Except.ok payload) :
    payload.weights = resolveWeights env.configurations run.configurationId ∧
    (∀ cid c, run.configurationId = some cid → cid ≠ 0 →
      configFindById env.configurations cid = some c →
      payload.weights = c.weights) ∧
    (∀ a, (match run.configurationId with
        | some cid => cid = 0 ∨ configFindById env.configurations cid = none
        | none => True) →
      configFindActive env.configurations = some a → payload.weights = a.weights) ∧
    ((match run.configurationId with
        | some cid => cid = 0 ∨ configFindById env.configurations cid = none
        | none => True) →
      configFindActive env.configurations = none → payload.weights = defaultWeights) ∧
    defaultWeights = ⟨1000, 500, 300, 200, 100, 50, 50⟩ := by
  have hw : payload.weights = resolveWeights env.configurations run.configurationId := by
    rw [prepare_ok_eq env run payload h]
  refine ⟨hw, ?_, ?_, ?_, rfl⟩
  · intro cid c hcid hcid0 hfind
    rw [hw]
    unfold resolveWeights
    rw [hcid]
    simp [hcid0, hfind]
  · intro a hnone hact
    rw [hw]
    unfold resolveWeights
    cases hcid : run.configurationId with
    | none => simp [hact]
    | some cid =>
        rw [hcid] at hnone
        rcases hnone with h0 | hfindnone
        · simp [h0, hact]
        · by_cases hz : cid = 0
          · simp [hz, hact]
          · simp [hz, hfindnone, hact]
  · intro hnone hact
    rw [hw]
    unfold resolveWeights
    cases hcid : run.configurationId with
    | none => simp [hact, Option.getD]
    | some cid =>
        rw [hcid] at hnone
        rcases hnone with h0 | hfindnone
        · simp [h0, hact]
        · by_cases hz : cid = 0
          · simp [hz, hact]
          · simp [hz, hfindnone, hact]

/-- C8 witness: the configured run resolves to configuration 3. -/
theorem c8_weight_resolution_witness :
    exPayloadCfg.weights = exConfig.weights :=
  (c8_weight_resolution exEnvCfg exRunCfg exPayloadCfg rfl).2.1 3 exConfig
    rfl (by decide) rfl

/-- C9: the payload constraints and sibling rules are exactly the table
rows scoped to the run school year, while preferences are fetched with no
filter whatsoever: every preference row in the system is projected into
the payload regardless of its school year or grade. -/
theorem c9_payload_scoping (env : Env) (run : OptimizationRun)
    (payload : OptimizationPayload)
    (h : prepareOptimizationPayload env run = Except.ok payload)
    (hsy : run.schoolYearId ≠ 0) :
    payload.constraints = (env.constraints.filter
        (fun c => c.schoolYearId == run.schoolYearId)).map (fun c =>
      { studentAId := c.studentAId, studentBId := c.studentBId,
        constraintTypeWeight := jsOrInt c.constraintTypeWeight 500,
        action := c.action }) ∧
    payload.siblingRules = (env.siblingRules.filter
        (fun r => r.schoolYearId == run.schoolYearId)).map (fun r =>
      { studentAId := r.studentAId, studentBId := r.studentBId,
        ruleType := r.ruleType }) ∧
    payload.preferences = env.preferences.map (fun p =>
      { studentId := p.studentId, preferredStudentId := p.preferredStudentId,
        priority := p.priority }) ∧
    (∀ p, p ∈ env.preferences →
      ({ studentId := p.studentId, preferredStudentId := p.preferredStudentId,
         priority := p.priority } : PayloadPreference) ∈ payload.preferences) := by
  have he := prepare_ok_eq env run payload h
  refine ⟨?_, ?_, ?_, ?_⟩
  · rw [he]
    simp only [constraintFindAll, if_neg hsy]
  · rw [he]
    simp only [siblingFindAll, if_neg hsy]
  · rw [he]
    simp only [preferenceFindAll]
  · intro p hp
    rw [he]
    simp only [preferenceFindAll]
    exact List.mem_map_of_mem _ hp

/-- C9 witness: the concrete world carries preference rows from two
different school years and grades; both end up in the payload. -/
theorem c9_payload_scoping_witness :
    exPayload.constraints = (exEnv.constraints.filter
        (fun c => c.schoolYearId == exRun.schoolYearId)).map (fun c =>
      { studentAId := c.studentAId, studentBId := c.studentBId,
        constraintTypeWeight := jsOrInt c.constraintTypeWeight 500,
        action := c.action }) ∧
    exPayload.siblingRules = (exEnv.siblingRules.filter
        (fun r => r.schoolYearId == exRun.schoolYearId)).map (fun r =>
      { studentAId := r.studentAId, studentBId := r.studentBId,
        ruleType := r.ruleType }) ∧
    exPayload.preferences = exEnv.preferences.map (fun p =>
      { studentId := p.studentId, preferredStudentId := p.preferredStudentId,
        priority := p.priority }) ∧
    (∀ p, p ∈ exEnv.preferences →
      ({ studentId := p.studentId, preferredStudentId := p.preferredStudentId,
         priority := p.priority } : PayloadPreference) ∈ exPayload.preferences) :=
  c9_payload_scoping exEnv exRun exPayload rfl (by decide)

/-- C10: the committed assignment set is the solver output verbatim — one
row per returned pair bound to the fresh distribution id, with no
validation of coverage, capacity or non-emptiness; when the insert
succeeds, the run completes pointing at the new distribution, and an empty
solver assignment list performs no insert at all while the run still
reaches COMPLETED with a distribution owning zero assignment rows. -/
theorem c10_commit_verbatim (env : Env) (db : DB) (runId : Nat)
    (run : OptimizationRun) (payload : OptimizationPayload) (result : SolverResponse)
    (h : findOptimizationRunById db runId = some run)
    (hp : prepareOptimizationPayload env run = Except.ok payload)
    (hsv : callPythonService env.solverOutcome = Except.ok result) :
    (env.assignmentInsertError = none →
      (executeOptimization env db runId).2.2 = Except.ok () ∧
      (executeOptimization env db runId).1.assignments = db.assignments ++
        result.assignments.map (fun a =>
          { distributionId := db.nextDistributionId, studentId := a.studentId,
            classId := a.classId }) ∧
      (∃ r2, findOptimizationRunById (executeOptimization env db runId).1 runId =
          some r2 ∧ r2.status = RunStatus.COMPLETED ∧
        r2.distributionId = some db.nextDistributionId)) ∧
    (result.assignments = [] →
      (executeOptimization env db runId).2.2 = Except.ok () ∧
      (executeOptimization env db runId).1.assignments = db.assignments ∧
      (∃ d, (executeOptimization env db runId).1.distributions =
          db.distributions ++ [d] ∧ d.id = db.nextDistributionId ∧
        d.metaRunId = some runId) ∧
      (∃ r2, findOptimizationRunById (executeOptimization env db runId).1 runId =
          some r2 ∧ r2.status = RunStatus.COMPLETED ∧
        r2.distributionId = some db.nextDistributionId)) := by
  refine ⟨?_, ?_⟩
  · intro he
    cases ha : result.assignments with
    | nil =>
        simp only [executeOptimization, h, hp, hsv, he, ha, List.map_nil, createAssignments,
          List.isEmpty_nil, if_true, List.append_nil]
        refine ⟨trivial, ?_, ?_⟩
        · rw [update_assignments, distributionCreate_assignments, update_assignments]
        · have h1 := find_update db runId (dtoRunning env.now) run h
          refine ⟨_, find_update _ runId _ _ ((find_distCreate _ _ _).trans h1), rfl, ?_⟩
          simp [applyRunUpdate, dtoCompleted, setOpt, distributionCreate_id,
            update_nextDistributionId]
    | cons x xs =>
        simp only [executeOptimization, h, hp, hsv, he, ha, List.map_cons, createAssignments,
          List.isEmpty_cons, Bool.false_eq_true, if_false]
        refine ⟨trivial, ?_, ?_⟩
        · rw [update_assignments]
          simp only [distributionCreate_assignments, update_assignments,
            distributionCreate_id, update_nextDistributionId]
        · have h1 := find_update db runId (dtoRunning env.now) run h
          refine ⟨_, find_update _ runId _ _
            ((find_distCreate (updateOptimizationRun db runId (dtoRunning env.now)).1
              { schoolYearId := run.schoolYearId, gradeLevelId := run.gradeLevelId,
                configurationId := run.configurationId, name := distributionName env.now,
                fitnessScore := some result.fitnessScore, isFinal := false,
                isOptimized := true, metaGenerationCount := some result.generationCount,
                metaExecutionTime := some result.executionTime,
                metaRunId := some runId } runId).trans h1), rfl, ?_⟩
          simp [applyRunUpdate, dtoCompleted, setOpt, distributionCreate_id,
            update_nextDistributionId]
  · intro ha
    simp only [executeOptimization, h, hp, hsv, ha, List.map_nil, createAssignments,
      List.isEmpty_nil, if_true]
    refine ⟨trivial, ?_, ?_, ?_⟩
    · rw [update_assignments, distributionCreate_assignments, update_assignments]
    · refine ⟨(distributionCreate (updateOptimizationRun db runId (dtoRunning env.now)).1
        { schoolYearId := run.schoolYearId, gradeLevelId := run.gradeLevelId,
          configurationId := run.configurationId, name := distributionName env.now,
          fitnessScore := some result.fitnessScore, isFinal := false, isOptimized := true,
          metaGenerationCount := some result.generationCount,
          metaExecutionTime := some result.executionTime, metaRunId := some runId }).2,
        ?_, ?_, rfl⟩
      · rw [update_distributions, distributionCreate_distributions, update_distributions]
      · rw [distributionCreate_id, update_nextDistributionId]
    · have h1 := find_update db runId (dtoRunning env.now) run h
      refine ⟨_, find_update _ runId _ _ ((find_distCreate _ _ _).trans h1), rfl, ?_⟩
      simp [applyRunUpdate, dtoCompleted, setOpt, distributionCreate_id,
        update_nextDistributionId]


/-- C10 witness: empty solver assignment list, would-fail INSERT never
attempted, run still COMPLETED owning a distribution with no assignments. -/
theorem c10_commit_verbatim_witness :
    (exEnvEmpty.assignmentInsertError = none →
      (executeOptimization exEnvEmpty exDB 7).2.2 = Except.ok () ∧
      (executeOptimization exEnvEmpty exDB 7).1.assignments = exDB.assignments ++
        ({ exResponse with assignments := [] } : SolverResponse).assignments.map (fun a =>
          { distributionId := exDB.nextDistributionId, studentId := a.studentId,
            classId := a.classId }) ∧
      (∃ r2, findOptimizationRunById (executeOptimization exEnvEmpty exDB 7).1 7 =
          some r2 ∧ r2.status = RunStatus.COMPLETED ∧
        r2.distributionId = some exDB.nextDistributionId)) ∧
    (({ exResponse with assignments := [] } : SolverResponse).assignments = [] →
      (executeOptimization exEnvEmpty exDB 7).2.2 = Except.ok () ∧
      (executeOptimization exEnvEmpty exDB 7).1.assignments = exDB.assignments ∧
      (∃ d, (executeOptimization exEnvEmpty exDB 7).1.distributions =
          exDB.distributions ++ [d] ∧ d.id = exDB.nextDistributionId ∧
        d.metaRunId = some 7) ∧
      (∃ r2, findOptimizationRunById (executeOptimization exEnvEmpty exDB 7).1 7 =
          some r2 ∧ r2.status = RunStatus.COMPLETED ∧
        r2.distributionId = some exDB.nextDistributionId)) :=
  c10_commit_verbatim exEnvEmpty exDB 7 exRun exPayload
    { exResponse with assignments := [] } rfl rfl rfl

end EloAr
